import Mathlib

/-!
Verification of `compressor.py`, a video-compression driver script.

The development shallow-embeds the pure/algorithmic core of the script:
the timestamp parser `time_str_to_seconds`, the `time=` regex search of the
progress monitor, the read/poll loop of `compress_video`, the ffmpeg command
construction with its default-output derivation (`os.path.splitext` model),
the interactive CRF prompt logic, and the `check_ffmpeg` preflight.
Strings are modelled as `List Char`; Python floats are modelled as exact
rationals (`ℚ`); child-process I/O is modelled by explicit event traces
(one event per loop iteration: the `readline` result and the `poll` result).
-/

/-- Positional value of a list of decimal digit characters, exactly the
fold performed by Python's `int` on a digit string (`compressor.py:174`). -/
def digitsVal (cs : List Char) : ℕ :=
  cs.foldl (fun a c => a * 10 + (c.toNat - 48)) 0

/-- Model of Python `int(s)` on an already-stripped field of a timestamp:
succeeds exactly on nonempty all-digit strings (signs never occur in the
regex-matched fields fed to `time_str_to_seconds`). -/
def parseNat? (cs : List Char) : Option ℕ :=
  if cs.isEmpty then none
  else if cs.all Char.isDigit then some (digitsVal cs) else none

/-- Split a character list on a separator character, exactly like Python's
`str.split(sep)`: `splitOnChar ':' "a:b:c" = ["a","b","c"]`, and the result
always has one more part than there are separators. -/
def splitOnChar (sep : Char) : List Char → List (List Char)
  | [] => [[]]
  | c :: cs =>
    if c = sep then [] :: splitOnChar sep cs
    else
      match splitOnChar sep cs with
      | [] => [[c]]
      | f :: rest => (c :: f) :: rest

/-- Model of Python `float(s)` restricted to the non-negative decimal
literals that can reach it here: an all-digit string, or
`whole.frac` with digit parts not both empty, valued exactly as
`whole + frac / 10 ^ len(frac)`. -/
def parseDec? (cs : List Char) : Option ℚ :=
  match splitOnChar '.' cs with
  | [w] =>
    if w.isEmpty then none
    else if w.all Char.isDigit then some (digitsVal w) else none
  | [w, f] =>
    if w.isEmpty && f.isEmpty then none
    else if w.all Char.isDigit && f.all Char.isDigit then
      some ((digitsVal w : ℚ) + (digitsVal f : ℚ) / (10 : ℚ) ^ f.length)
    else none
  | _ => none

/-- Embedding of `time_str_to_seconds` (`compressor.py:163-175`): split on
`':'`, require exactly three fields (the Python tuple unpacking raises
otherwise, modelled by `none`), and return `int(h)*3600 + int(m)*60 + float(s)`. -/
def time_str_to_seconds (cs : List Char) : Option ℚ :=
  match splitOnChar ':' cs with
  | [h, m, s] =>
    match parseNat? h, parseNat? m, parseDec? s with
    | some hv, some mv, some sv => some ((hv : ℚ) * 3600 + (mv : ℚ) * 60 + sv)
    | _, _, _ => none
  | _ => none

/-- A split never produces the empty list of parts. -/
theorem splitOnChar_ne_nil (sep : Char) (l : List Char) : splitOnChar sep l ≠ [] := by
  cases l with
  | nil => simp [splitOnChar]
  | cons c cs =>
    rw [splitOnChar]
    split
    · simp
    · split <;> simp

/-- Splitting a separator-free list yields that list as the single part. -/
theorem splitOnChar_no_sep (sep : Char) (a : List Char) (h : sep ∉ a) :
    splitOnChar sep a = [a] := by
  induction a with
  | nil => rfl
  | cons c cs ih =>
    have hc : ¬(c = sep) := fun hcs => h (hcs ▸ List.mem_cons_self c cs)
    have hcs : sep ∉ cs := fun hm => h (List.mem_cons_of_mem c hm)
    simp [splitOnChar, hc, ih hcs]

/-- Splitting peels off a separator-free head part before the first separator. -/
theorem splitOnChar_append (sep : Char) (a b : List Char) (h : sep ∉ a) :
    splitOnChar sep (a ++ sep :: b) = a :: splitOnChar sep b := by
  induction a with
  | nil => simp [splitOnChar]
  | cons c cs ih =>
    have hc : ¬(c = sep) := fun hcs => h (hcs ▸ List.mem_cons_self c cs)
    have hcs : sep ∉ cs := fun hm => h (List.mem_cons_of_mem c hm)
    rw [List.cons_append, splitOnChar]
    simp only [hc, if_false, ih hcs]

/-- A string accepted by `parseNat?` is all digits, hence contains no colon. -/
theorem parseNat?_no_colon (cs : List Char) (n : ℕ) (h : parseNat? cs = some n) :
    ':' ∉ cs := by
  intro hmem
  rw [parseNat?] at h
  split at h
  · exact Option.noConfusion h
  · split at h
    · next hall =>
      have hd := List.all_eq_true.mp hall _ hmem
      exact absurd hd (by decide)
    · exact Option.noConfusion h

/-- C1: for every well-formed timestamp string with three colon-separated
fields H:M:S.frac (H, M non-negative integers, S.frac a non-negative
decimal), `time_str_to_seconds` returns exactly H*3600 + M*60 + S.frac. -/
theorem C1_time_parser_exact (hs ms ss : List Char) (H M : ℕ) (S : ℚ)
    (hH : parseNat? hs = some H) (hM : parseNat? ms = some M)
    (hS : parseDec? ss = some S) (hcol : ':' ∉ ss) :
    time_str_to_seconds (hs ++ ':' :: (ms ++ ':' :: ss)) =
      some ((H : ℚ) * 3600 + (M : ℚ) * 60 + S) := by
  have c1 : ':' ∉ hs := parseNat?_no_colon hs H hH
  have c2 : ':' ∉ ms := parseNat?_no_colon ms M hM
  rw [time_str_to_seconds, splitOnChar_append ':' hs _ c1,
    splitOnChar_append ':' ms _ c2, splitOnChar_no_sep ':' ss hcol]
  simp only [hH, hM, hS]

/-- C1 witness: the spec's own example, "01:02:03.50" parses to 3723.5. -/
theorem C1_time_parser_exact_witness :
    time_str_to_seconds ("01".data ++ ':' :: ("02".data ++ ':' :: "03.50".data)) =
      some (((1 : ℕ) : ℚ) * 3600 + ((2 : ℕ) : ℚ) * 60 + 7 / 2) :=
  C1_time_parser_exact "01".data "02".data "03.50".data 1 2 (7 / 2)
    (by decide) (by decide)
    (by
      rw [parseDec?, (by decide : splitOnChar '.' "03.50".data = ["03".data, "50".data])]
      simp [(by decide : digitsVal "03".data = 3), (by decide : digitsVal "50".data = 50)]
      norm_num)
    (by decide)

/-- Maximal run of digit characters at the head of a list and the rest,
modelling a greedy regex token matching digits whose successor token in the
pattern can never be a digit. -/
def takeDigits (cs : List Char) : List Char × List Char :=
  (cs.takeWhile Char.isDigit, cs.dropWhile Char.isDigit)

/-- The character sequence of the literal part of the progress pattern. -/
def timeMarker : List Char := "time=".data

/-- If the pattern piece matching digit runs and separators succeeds with the
scan anchored at the head of `cs`, return the matched group characters:
this models the regex group in `compressor.py:134` after the
literal marker, together with the requirement that every digit class run is
nonempty. -/
def matchTimeAt (cs : List Char) : Option (List Char) :=
  let p1 := takeDigits cs
  if p1.1.isEmpty then none
  else
    match p1.2 with
    | ':' :: r1 =>
      let p2 := takeDigits r1
      if p2.1.isEmpty then none
      else
        match p2.2 with
        | ':' :: r2 =>
          let p3 := takeDigits r2
          if p3.1.isEmpty then none
          else
            match p3.2 with
            | '.' :: r3 =>
              let p4 := takeDigits r3
              if p4.1.isEmpty then none
              else some (p1.1 ++ ':' :: p2.1 ++ ':' :: p3.1 ++ '.' :: p4.1)
            | _ => none
        | _ => none
    | _ => none

/-- Drop the given pattern from the head of a list if it is literally
there; `none` otherwise. -/
def dropPat (pat s : List Char) : Option (List Char) :=
  match pat, s with
  | [], rest => some rest
  | _ :: _, [] => none
  | p :: ps, c :: cs => if p = c then dropPat ps cs else none

/-- Leftmost search for the pattern time=(digits:digits:digits.digits) of
`compressor.py:134`, returning the captured group: every start position is
tried in order, exactly as the regex engine scans. -/
def searchTime : List Char → Option (List Char)
  | [] => none
  | c :: cs =>
    match dropPat timeMarker (c :: cs) with
    | some rest =>
      match matchTimeAt rest with
      | some g => some g
      | none => searchTime cs
    | none => searchTime cs

/-- Boolean test that `pat` occurs verbatim at the head of `s`. -/
def headPat (pat s : List Char) : Bool :=
  match pat, s with
  | [], _ => true
  | _ :: _, [] => false
  | p :: ps, c :: cs => p = c && headPat ps cs

/-- Model of the Python substring test `'time=' in line`
(`compressor.py:142`). -/
def hasPat (pat : List Char) : List Char → Bool
  | [] => pat.isEmpty
  | c :: cs => headPat pat (c :: cs) || hasPat pat cs

/-- One line of the monitor body (`compressor.py:142-150`): if the line
contains the marker, search the pattern; on a match convert the group with
`time_str_to_seconds`; if the total duration is truthy (not `None`, not 0.0)
emit `current/total*100`; otherwise emit nothing. -/
def progressOfLine (total_duration : Option ℚ) (line : List Char) : Option ℚ :=
  if hasPat timeMarker line then
    match searchTime line with
    | some g =>
      match time_str_to_seconds g, total_duration with
      | some t, some dur => if dur = 0 then none else some (t / dur * 100)
      | _, _ => none
    | none => none
  else none

/-- One event per iteration of the read loop (`compressor.py:136-152`): the
`readline` result (`none` for an empty read, `some line` otherwise) and the
`poll` result for that iteration (`true` when the process has terminated). -/
def MonitorEv : Type := Option (List Char) × Bool

/-- Embedding of the read/poll loop of `compress_video`
(`compressor.py:136-152`). Returns the emitted progress percentages and
the lines actually read and scanned. An empty read with the process alive
continues the loop; an empty read with the process terminated breaks; a
non-empty line is scanned (emitting at most one progress event) and the
loop then breaks if the poll shows the process has terminated. -/
def monitorLoop (total_duration : Option ℚ) : List MonitorEv → List ℚ × List (List Char)
  | [] => ([], [])
  | (none, dead) :: rest =>
    if dead then ([], []) else monitorLoop total_duration rest
  | (some l, dead) :: rest =>
    let ev := (progressOfLine total_duration l).toList
    if dead then (ev, [l])
    else
      let r := monitorLoop total_duration rest
      (ev ++ r.1, l :: r.2)

/-- The lines present in the diagnostic stream of an event trace. -/
def streamLines (evs : List MonitorEv) : List (List Char) :=
  evs.filterMap Prod.fst

/-- A successful pattern drop means the pattern heads the list. -/
theorem dropPat_headPat (pat : List Char) : ∀ (s r : List Char),
    dropPat pat s = some r → headPat pat s = true := by
  induction pat with
  | nil => intro s r _; rfl
  | cons p ps ih =>
    intro s r h
    cases s with
    | nil => exact Option.noConfusion h
    | cons c cs =>
      rw [dropPat] at h
      rw [headPat]
      by_cases hpc : p = c
      · simp only [hpc, if_true] at h
        simp [hpc, ih cs r h]
      · simp [hpc] at h

/-- A successful leftmost search implies the marker occurs in the line,
so the `'time=' in line` guard of `compressor.py:142` passes. -/
theorem searchTime_hasPat : ∀ (l g : List Char),
    searchTime l = some g → hasPat timeMarker l = true := by
  intro l
  induction l with
  | nil => intro g h; exact Option.noConfusion h
  | cons c cs ih =>
    intro g h
    rw [searchTime] at h
    rw [hasPat]
    cases hd : dropPat timeMarker (c :: cs) with
    | some rest =>
      rw [hd] at h
      simp [dropPat_headPat timeMarker (c :: cs) rest hd]
    | none =>
      rw [hd] at h
      cases hm : hasPat timeMarker cs with
      | true => simp
      | false => rw [ih g h] at hm; exact Bool.noConfusion hm

/-- C2: with a known nonzero total duration D, a diagnostic line whose
matched timestamp parses to t makes the monitor emit exactly (t/D)*100,
with no clamping, so t greater than a positive D yields a value above 100. -/
theorem C2_percent_unclamped (D t : ℚ) (line g : List Char)
    (hD : D ≠ 0) (hs : searchTime line = some g)
    (ht : time_str_to_seconds g = some t) :
    progressOfLine (some D) line = some (t / D * 100) ∧
    (0 < D → D < t → (100 : ℚ) < t / D * 100) := by
  constructor
  · rw [progressOfLine]
    simp only [searchTime_hasPat line g hs, if_true, hs, ht, hD, if_false]
  · intro hD0 hlt
    have h1 : 1 < t / D := (one_lt_div hD0).mpr hlt
    nlinarith

/-- C2 witness: duration 30, line time-stamped at 60 seconds emits 200. -/
theorem C2_percent_unclamped_witness :
    progressOfLine (some 30) "frame=1 time=00:01:00.00 bitrate=2c".data =
      some ((60 : ℚ) / 30 * 100) ∧
    ((0 : ℚ) < 30 → (30 : ℚ) < 60 → (100 : ℚ) < (60 : ℚ) / 30 * 100) :=
  C2_percent_unclamped 30 60 "frame=1 time=00:01:00.00 bitrate=2c".data
    "00:01:00.00".data (by norm_num) (by decide)
    (by
      rw [time_str_to_seconds,
        (by decide : splitOnChar ':' "00:01:00.00".data = ["00".data, "01".data, "00.00".data])]
      simp only [(by decide : parseNat? "00".data = some 0),
        (by decide : parseNat? "01".data = some 1)]
      rw [parseDec?, (by decide : splitOnChar '.' "00.00".data = ["00".data, "00".data])]
      simp [(by decide : digitsVal "00".data = 0)])

/-- C3 amended: an empty read with the process alive is treated as no data
yet (the loop continues unchanged); an empty read with the process
terminated is true end-of-stream; but after scanning a non-empty line the
loop also exits as soon as the poll reports termination, leaving any
further buffered lines unread; when termination is only ever observed on
an empty read, every line of the stream is scanned. -/
theorem C3_read_loop_exit (D : Option ℚ) (evs : List MonitorEv)
    (l : List Char) (lines : List (List Char)) :
    monitorLoop D ((none, false) :: evs) = monitorLoop D evs ∧
    (monitorLoop D ((none, true) :: evs)).2 = [] ∧
    (monitorLoop D ((some l, true) :: evs)).2 = [l] ∧
    (monitorLoop D (lines.map (fun x => (some x, false)) ++ [(none, true)])).2 =
      lines := by
  refine ⟨rfl, rfl, rfl, ?_⟩
  induction lines with
  | nil => rfl
  | cons x xs ih => simp [monitorLoop, ih]

/-- C3 counterexample: a stream holding lines a and b with the process
already terminated: the loop scans only a and exits, so the claim that
every buffered line is read and scanned before exit fails. -/
theorem C3_buffered_line_dropped :
    streamLines [(some "a1".data, true), (some "b2".data, true)] =
      ["a1".data, "b2".data] ∧
    (monitorLoop none [(some "a1".data, true), (some "b2".data, true)]).2 =
      ["a1".data] :=
  ⟨rfl, rfl⟩

/-- The truthiness guard at `compressor.py:148` blocks emission when the
duration is absent or zero. -/
theorem progressOfLine_falsy (D : Option ℚ) (hD : D = none ∨ D = some 0)
    (line : List Char) : progressOfLine D line = none := by
  rcases hD with h | h <;> subst h
  · rw [progressOfLine]
    split
    · cases hs : searchTime line with
      | none => rfl
      | some g => cases ht : time_str_to_seconds g <;> simp [ht]
    · rfl
  · rw [progressOfLine]
    split
    · cases hs : searchTime line with
      | none => rfl
      | some g => cases ht : time_str_to_seconds g <;> simp [ht]
    · rfl

/-- With an absent or zero duration, no iteration of the read loop ever
emits a progress event. -/
theorem monitorLoop_falsy_emit (D : Option ℚ) (hD : D = none ∨ D = some 0) :
    ∀ evs : List MonitorEv, (monitorLoop D evs).1 = [] := by
  intro evs
  induction evs with
  | nil => rfl
  | cons e rest ih =>
    obtain ⟨l?, dead⟩ := e
    cases l? with
    | none => cases dead <;> simp [monitorLoop, ih]
    | some l =>
      cases dead <;> simp [monitorLoop, progressOfLine_falsy D hD l, ih]

/-- C9: a probed duration of exactly 0 is falsy exactly like None, so the
monitor emits no percentage for any stream and the division by the total
duration is never reached. -/
theorem C9_zero_duration_no_emit (evs : List MonitorEv) :
    (monitorLoop (some 0) evs).1 = [] ∧ (monitorLoop none evs).1 = [] :=
  ⟨monitorLoop_falsy_emit (some 0) (Or.inr rfl) evs,
   monitorLoop_falsy_emit none (Or.inl rfl) evs⟩

/-- Decimal rendering of an integer, modelling Python's str() applied to
the CRF value in the command vector (`compressor.py:122`). -/
def intChars (i : ℤ) : List Char :=
  if i < 0 then '-' :: Nat.toDigits 10 i.natAbs else Nat.toDigits 10 i.natAbs

/-- The exact argument vector of the encoder invocation
(`compressor.py:118-126`). -/
def ffmpegCommand (input output : List Char) (crf : ℤ) (preset : List Char) :
    List (List Char) :=
  ["ffmpeg".data, "-i".data, input, "-vcodec".data, "libx265".data,
   "-crf".data, intChars crf, "-preset".data, preset, "-y".data, output]

/-- The environment a `compress_video` run interacts with: the result of
the duration probe (`get_video_duration`, `compressor.py:77-98`: `none`
models its `None` on any failure), the stderr read/poll event trace of the
encoder process, and the encoder's terminal exit code. -/
structure ExecEnv where
  probeResult : Option ℚ
  stderrEvents : List MonitorEv
  exitCode : ℤ

/-- Child processes `compress_video` can spawn: the ffprobe duration probe
and the ffmpeg encoder. -/
inductive Spawn where
  | probe
  | encoder
deriving DecidableEq, Repr

/-- Outcome of one `compress_video` call: the `FileNotFoundError` raised at
`compressor.py:112`, the generic encode failure raised at
`compressor.py:157`, or normal completion. -/
inductive Outcome where
  | fileNotFound
  | encodeFailed
  | ok
deriving DecidableEq

/-- Everything observable about one `compress_video` call: its outcome, the
child processes it spawned in order, the encoder command (when spawned),
and the emitted progress percentages. -/
structure RunTrace where
  outcome : Outcome
  spawned : List Spawn
  command : Option (List (List Char))
  progress : List ℚ
deriving DecidableEq

/-- Embedding of `compress_video` (`compressor.py:100-161`): the input
existence check precedes everything; then the probe runs, the encoder is
spawned with the constructed command, the read loop consumes the stderr
trace, and after `process.wait()` a zero exit code means success while any
nonzero exit code raises the generic encode failure. -/
def compress_video (inputExists : Bool) (input output : List Char)
    (crf : ℤ) (preset : List Char) (env : ExecEnv) : RunTrace :=
  if inputExists then
    ⟨if env.exitCode = 0 then Outcome.ok else Outcome.encodeFailed,
     [Spawn.probe, Spawn.encoder],
     some (ffmpegCommand input output crf preset),
     (monitorLoop env.probeResult env.stderrEvents).1⟩
  else
    ⟨Outcome.fileNotFound, [], none, []⟩

/-- C4: when the input path names no existing file, `compress_video` fails
with the file-not-found condition and spawns no child process at all. -/
theorem C4_missing_input_no_spawn (input output : List Char) (crf : ℤ)
    (preset : List Char) (env : ExecEnv) :
    (compress_video false input output crf preset env).outcome =
      Outcome.fileNotFound ∧
    (compress_video false input output crf preset env).spawned = [] :=
  ⟨rfl, rfl⟩

/-- C5: with an existing input, the reported outcome is success exactly
when the observed exit code is 0 and the generic encode failure exactly
when it is nonzero; the outcome is a function of the exit code alone. -/
theorem C5_exit_code_outcome (input output : List Char) (crf : ℤ)
    (preset : List Char) (env : ExecEnv) :
    ((compress_video true input output crf preset env).outcome = Outcome.ok ↔
      env.exitCode = 0) ∧
    ((compress_video true input output crf preset env).outcome =
        Outcome.encodeFailed ↔ env.exitCode ≠ 0) := by
  rw [compress_video]
  by_cases h : env.exitCode = 0 <;> simp [h]

/-- C6: when the duration probe has failed (returned None), no percentage
event is emitted no matter what the diagnostic stream holds, and the
encode still runs to an outcome decided by the exit code alone. -/
theorem C6_probe_failure_degrades (input output : List Char) (crf : ℤ)
    (preset : List Char) (env : ExecEnv) (h : env.probeResult = none) :
    (compress_video true input output crf preset env).progress = [] ∧
    ((compress_video true input output crf preset env).outcome = Outcome.ok ↔
      env.exitCode = 0) ∧
    (compress_video true input output crf preset env).spawned =
      [Spawn.probe, Spawn.encoder] := by
  refine ⟨?_, ?_, rfl⟩
  · rw [compress_video]
    simp only [if_true]
    rw [h]
    exact monitorLoop_falsy_emit none (Or.inl rfl) env.stderrEvents
  · rw [compress_video]
    by_cases hc : env.exitCode = 0 <;> simp [hc]

/-- C6 witness: a failed probe with a time-stamped line in the stream and
exit code 0: no progress, success outcome, both processes spawned. -/
theorem C6_probe_failure_degrades_witness :
    (compress_video true "in.mp4".data "out.mp4".data 28 "medium".data
        ⟨none, [(some "time=00:00:01.00 x".data, false), (none, true)], 0⟩).progress =
      [] ∧
    ((compress_video true "in.mp4".data "out.mp4".data 28 "medium".data
        ⟨none, [(some "time=00:00:01.00 x".data, false), (none, true)], 0⟩).outcome =
        Outcome.ok ↔
      (⟨none, [(some "time=00:00:01.00 x".data, false), (none, true)], 0⟩ :
          ExecEnv).exitCode = 0) ∧
    (compress_video true "in.mp4".data "out.mp4".data 28 "medium".data
        ⟨none, [(some "time=00:00:01.00 x".data, false), (none, true)], 0⟩).spawned =
      [Spawn.probe, Spawn.encoder] :=
  C6_probe_failure_degrades "in.mp4".data "out.mp4".data 28 "medium".data
    ⟨none, [(some "time=00:00:01.00 x".data, false), (none, true)], 0⟩ rfl

/-- Model of `os.path.splitext` (posix): split at the last dot that lies
after the last path separator, unless the basename up to that dot consists
only of dots (so ".bashrc" has no extension). -/
def splitext (p : List Char) : List Char × List Char :=
  let r := p.reverse
  let extRev := r.takeWhile (fun c => !(c == '.' || c == '/'))
  match r.drop extRev.length with
  | '.' :: baseRev =>
    if (baseRev.takeWhile (fun c => !(c == '/'))).all (fun c => c == '.') then
      (p, [])
    else (baseRev.reverse, '.' :: extRev.reverse)
  | _ => (p, [])

/-- The default output path derivation used by both `main`
(`compressor.py:260-262`) and `interactive_mode` (`compressor.py:188-190`):
insert -cmp between the stem and the extension of the input path. -/
def defaultOutput (input : List Char) : List Char :=
  (splitext input).1 ++ "-cmp".data ++ (splitext input).2

/-- The parsed command-line arguments of `parse_arguments`
(`compressor.py:24-37`); `none` models an absent optional value. -/
structure Args where
  input : Option (List Char)
  output : Option (List Char)
  crf : ℤ
  preset : List Char
  interactive : Bool

/-- Python truthiness test `not args.input_file` at `compressor.py:249`:
true for an absent input and for an empty string. -/
def inputFalsy : Option (List Char) → Bool
  | none => true
  | some s => s.isEmpty

/-- Output-path resolution of `compressor.py:259-262`: a falsy `-o` value
(absent or empty) is replaced by the default derived beside the input. -/
def resolveOutput (input : List Char) : Option (List Char) → List Char
  | some o => if o.isEmpty then defaultOutput input else o
  | none => defaultOutput input

/-- The encoder command `main` (`compressor.py:239-266`) passes to
`compress_video` in non-interactive mode; `none` when the flow instead
enters interactive mode (`compressor.py:249-251`). -/
def mainCommand (args : Args) : Option (List (List Char)) :=
  if args.interactive || inputFalsy args.input then none
  else
    match args.input with
    | some input =>
      some (ffmpegCommand input (resolveOutput input args.output) args.crf args.preset)
    | none => none

/-- C7: a non-interactive run with default flags invokes the encoder with
exactly the argument order input flag, input, codec libx265, crf 28,
preset medium, overwrite flag, output, with the output defaulting to
stem-cmp followed by the input extension. -/
theorem C7_default_command (input : List Char) (h : input ≠ []) :
    mainCommand ⟨some input, none, 28, "medium".data, false⟩ =
      some ["ffmpeg".data, "-i".data, input, "-vcodec".data, "libx265".data,
        "-crf".data, "28".data, "-preset".data, "medium".data, "-y".data,
        (splitext input).1 ++ "-cmp".data ++ (splitext input).2] := by
  rw [mainCommand]
  simp only [Bool.false_or, inputFalsy]
  rw [if_neg (by simp [List.isEmpty_iff, h])]
  rw [resolveOutput, ffmpegCommand, defaultOutput,
    (by decide : intChars 28 = "28".data)]

/-- C7 witness: input movie.mp4 yields the default output movie-cmp.mp4 in
the exact documented argument vector. -/
theorem C7_default_command_witness :
    mainCommand ⟨some "movie.mp4".data, none, 28, "medium".data, false⟩ =
      some ["ffmpeg".data, "-i".data, "movie.mp4".data, "-vcodec".data,
        "libx265".data, "-crf".data, "28".data, "-preset".data, "medium".data,
        "-y".data, "movie-cmp.mp4".data] :=
  (C7_default_command "movie.mp4".data (by decide)).trans (by decide)

/-- Python whitespace characters removed by `str.strip()`. -/
def isPySpace (c : Char) : Bool :=
  c == ' ' || c == '\t' || c == '\n' || c == '\r' || c == '\x0b' || c == '\x0c'

/-- Model of Python `str.strip()` on the prompt answers. -/
def pyStrip (cs : List Char) : List Char :=
  ((cs.dropWhile isPySpace).reverse.dropWhile isPySpace).reverse

/-- Model of Python `str.lower()` on the ASCII prompt answers. -/
def pyLower (cs : List Char) : List Char :=
  cs.map Char.toLower

/-- Membership test in the literal list of line 203 of the source:
the adjust-quality branch is taken only for "y" and "yes" - the empty
string is *not* in this list (unlike line 188's list for the default
output question). -/
def adjustQualityYes (ans : List Char) : Bool :=
  pyLower (pyStrip ans) == "y".data || pyLower (pyStrip ans) == "yes".data

/-- Model of Python `int(s)` on a stripped interactive answer: optional
sign followed by a nonempty digit string. -/
def pyInt? (cs : List Char) : Option ℤ :=
  match cs with
  | '+' :: rest =>
    if rest.isEmpty then none
    else if rest.all Char.isDigit then some (digitsVal rest : ℤ) else none
  | '-' :: rest =>
    if rest.isEmpty then none
    else if rest.all Char.isDigit then some (-(digitsVal rest : ℤ)) else none
  | _ =>
    if cs.isEmpty then none
    else if cs.all Char.isDigit then some (digitsVal cs : ℤ) else none

/-- The CRF chosen by `interactive_mode` (`compressor.py:202-213`) from
the adjust-quality answer and the CRF answer, together with whether the
invalid-value warning is printed: when the adjust answer is yes, a parse
failure or an out-of-range value falls back to 28 with a warning;
otherwise the CRF question is skipped and 28 is used silently. -/
def interactiveCrf (adjustAns crfAns : List Char) : ℤ × Bool :=
  if adjustQualityYes adjustAns then
    match pyInt? (pyStrip crfAns) with
    | some v => if 0 ≤ v ∧ v ≤ 51 then (v, false) else (28, true)
    | none => (28, true)
  else (28, false)

/-- C8 counterexample: an empty answer to the adjust-quality prompt is not
treated as yes: the CRF question is skipped, so even an in-range CRF
answer is ignored and no warning is shown. -/
theorem C8_empty_not_yes :
    adjustQualityYes [] = false ∧ interactiveCrf [] "7".data = (28, false) := by
  constructor
  · decide
  · rw [interactiveCrf, if_neg (by decide)]

/-- C8 amended: only y / yes (case-insensitively, after stripping) opens
the CRF question; an empty adjust answer skips it and keeps the default
28 with no warning; when it is opened, a non-numeric answer or one outside
0-51 is replaced by the default 28 with a warning, and an in-range answer
is used unchanged. -/
theorem C8_crf_validation (a c : List Char) (v : ℤ)
    (ha : adjustQualityYes a = true) :
    adjustQualityYes [] = false ∧
    interactiveCrf [] c = (28, false) ∧
    (pyInt? (pyStrip c) = none → interactiveCrf a c = (28, true)) ∧
    (pyInt? (pyStrip c) = some v → 0 ≤ v → v ≤ 51 →
      interactiveCrf a c = (v, false)) ∧
    (pyInt? (pyStrip c) = some v → ¬(0 ≤ v ∧ v ≤ 51) →
      interactiveCrf a c = (28, true)) := by
  refine ⟨by decide, ?_, ?_, ?_, ?_⟩
  · rw [interactiveCrf, if_neg (by decide)]
  · intro hn
    rw [interactiveCrf, if_pos ha, hn]
  · intro hv h0 h51
    rw [interactiveCrf, if_pos ha, hv]
    simp [h0, h51]
  · intro hv hout
    rw [interactiveCrf, if_pos ha, hv]
    simp [hout]

/-- C8 witness: answering y then an out-of-range 200 falls back to CRF 28
with the warning shown. -/
theorem C8_crf_validation_witness :
    adjustQualityYes [] = false ∧
    interactiveCrf [] "200".data = (28, false) ∧
    (pyInt? (pyStrip "200".data) = none → interactiveCrf "y".data "200".data = (28, true)) ∧
    (pyInt? (pyStrip "200".data) = some 200 → 0 ≤ (200 : ℤ) → (200 : ℤ) ≤ 51 →
      interactiveCrf "y".data "200".data = (200, false)) ∧
    (pyInt? (pyStrip "200".data) = some 200 → ¬(0 ≤ (200 : ℤ) ∧ (200 : ℤ) ≤ 51) →
      interactiveCrf "y".data "200".data = (28, true)) :=
  C8_crf_validation "y".data "200".data 200 (by decide)

/-- The observable result of attempting `subprocess.run(['ffmpeg',
'-version'])` at `compressor.py:72`: either the binary was spawned and
completed with some exit code (`run` without `check=True` never raises for
a nonzero code), or the executable was not found on the search path. -/
inductive SpawnResult where
  | completed (exitCode : ℤ)
  | notFound

/-- Embedding of `check_ffmpeg` (`compressor.py:64-75`): any completed
invocation returns True regardless of its exit code; only
`FileNotFoundError` is caught and mapped to False. -/
def check_ffmpeg : SpawnResult → Bool
  | SpawnResult.completed _ => true
  | SpawnResult.notFound => false

/-- The startup gate of `main` (`compressor.py:243-246`): the run aborts
with exit code 1 exactly when `check_ffmpeg` reports unavailable. -/
def preflightAborts (r : SpawnResult) : Bool :=
  !(check_ffmpeg r)

/-- C10: preflight reports the encoder available whenever the binary could
be spawned, whatever exit code the version invocation returned - even a
failing one - and only the executable-not-found case is reported
unavailable and hits the fatal exit path of main. -/
theorem C10_preflight_ignores_exit_code (c : ℤ) :
    check_ffmpeg (SpawnResult.completed c) = true ∧
    check_ffmpeg SpawnResult.notFound = false ∧
    preflightAborts (SpawnResult.completed c) = false ∧
    preflightAborts SpawnResult.notFound = true :=
  ⟨rfl, rfl, rfl, rfl⟩
